import Mathlib

/-!
Shallow embedding of `packages/zowe-explorer/src/job/actions.ts`.

Each handler is modelled as a pure function from its explicit arguments plus
the outcomes of its collaborator calls (user dialogs resolve to `Option`
values, throwing collaborator calls are `Except Err` values) to a trace of
collaborator-call events together with the exception, if any, that propagates
out of the handler (handlers without a try/catch let collaborator errors
escape; handlers with try/catch route them to `errorHandling`).
-/

/-- The error value thrown by a collaborator; only its `message` is observed. -/
structure Err where
  message : String
deriving DecidableEq, Repr

/-- Profile validity statuses from `ValidProfileEnum`. -/
inductive ValidProfileEnum where
  | VALID
  | UNVERIFIED
  | INVALID
deriving DecidableEq, Repr

/-- The `(jobname, jobid)` payload of a job tree node (`node.job`). -/
structure JobInfo where
  jobname : String
  jobid : String
deriving DecidableEq, Repr

/-- A job tree node (`IZoweJobTreeNode`): the `job` field may be
undefined/null, and `owner` / `prefix` are the mutable filter fields set by
`setOwner` / `setPrefix` (`prefix` is spelled `prefixVal` because `prefix` is
a Lean keyword). -/
structure JobNode where
  job : Option JobInfo
  owner : Option String
  prefixVal : Option String
  label : String
deriving DecidableEq, Repr

/-- A session node in `jobsProvider.mSessionNodes`. -/
structure SessionNode where
  label : String
  searchId : String
deriving DecidableEq, Repr

/-- A result loaded by `Profiles.loadNamedProfile`. -/
structure IProfileLoaded where
  name : String
deriving DecidableEq, Repr

/-- One collaborator call made by a handler, in program order. -/
inductive Event where
  | errorHandling (msg : String)
  | downloadSpoolContent (jobid : String) (jobname : String) (outDir : String)
  | checkCurrentProfile
  | showTextDocument (session : String) (spool : String) (timestamp : Nat)
  | getJclForJob (jobname : String)
  | openJclDocument (content : String)
  | showJclDocument
  | refreshElement (label : Option String)
  | addSession (name : String)
  | setSearchId (label : String) (jobId : String)
  | getChildren
  | setItem (jobid : String)
  | issueCommand (cmd : String)
  | showInformationMessage (msg : String)
  | deleteNode (node : JobNode)
  | executeCommand (cmd : String)
deriving DecidableEq, Repr

/-- `downloadSpool(job)` (actions.ts lines 35-53): prompt for a folder; on
cancel do nothing; otherwise call `downloadSpoolContent` with the job's id,
name, and the selected path. The whole body is wrapped in try/catch routing
any error to `errorHandling(error, null, error.message)`.
`dialogResult` is the outcome of `vscode.window.showOpenDialog` (an absent
value when the user cancels, the selected folder's `fsPath` otherwise);
`downloadThrows` is the error thrown by `downloadSpoolContent`, if any. -/
def downloadSpool (job : JobInfo) (dialogResult : Except Err (Option String))
    (downloadThrows : Option Err) : List Event × Option Err :=
  match dialogResult with
  | Except.error e => ([Event.errorHandling e.message], none)
  | Except.ok none => ([], none)
  | Except.ok (some fsPath) =>
    match downloadThrows with
    | some e =>
      ([Event.downloadSpoolContent job.jobid job.jobname fsPath,
        Event.errorHandling e.message], none)
    | none =>
      ([Event.downloadSpoolContent job.jobid job.jobname fsPath], none)

/-- `getSpoolContent(session, spool, refreshTimestamp)` (lines 62-81):
resolve the named profile (try/catch: report and return on failure), then
`checkCurrentProfile`, then only when `validProfile` is VALID or UNVERIFIED
show the text document for the unique spool URI (try/catch: report and return
on failure). `checkCurrentProfile` records the resulting validity in
`validProfile`; `showDocThrows` is the error thrown by
`vscode.window.showTextDocument`, if any. -/
def getSpoolContent (session : String) (spool : String) (refreshTimestamp : Nat)
    (loadNamedProfile : Except Err IProfileLoaded)
    (validProfile : ValidProfileEnum)
    (showDocThrows : Option Err) : List Event × Option Err :=
  match loadNamedProfile with
  | Except.error e => ([Event.errorHandling e.message], none)
  | Except.ok _ =>
    if validProfile = ValidProfileEnum.VALID ∨ validProfile = ValidProfileEnum.UNVERIFIED then
      match showDocThrows with
      | some e =>
        ([Event.checkCurrentProfile,
          Event.showTextDocument session spool refreshTimestamp,
          Event.errorHandling e.message], none)
      | none =>
        ([Event.checkCurrentProfile,
          Event.showTextDocument session spool refreshTimestamp], none)
    else
      ([Event.checkCurrentProfile], none)

/-- `downloadJcl(job)` (lines 114-122): fetch the JCL text, open it as a new
document with language "jcl", show it; the whole body is wrapped in try/catch
routing any error to `errorHandling`. -/
def downloadJcl (job : JobInfo) (getJclResult : Except Err String)
    (openDocThrows : Option Err) (showDocThrows : Option Err) :
    List Event × Option Err :=
  match getJclResult with
  | Except.error e =>
    ([Event.getJclForJob job.jobname, Event.errorHandling e.message], none)
  | Except.ok jobJcl =>
    match openDocThrows with
    | some e =>
      ([Event.getJclForJob job.jobname, Event.openJclDocument jobJcl,
        Event.errorHandling e.message], none)
    | none =>
      match showDocThrows with
      | some e =>
        ([Event.getJclForJob job.jobname, Event.openJclDocument jobJcl,
          Event.showJclDocument, Event.errorHandling e.message], none)
      | none =>
        ([Event.getJclForJob job.jobname, Event.openJclDocument jobJcl,
          Event.showJclDocument], none)

/-- `modifyCommand(job)` (lines 162-176): prompt for a command string; when
the box resolves to a present value (any string, including the empty string)
issue `f <jobname>,<command>` and show the response; when the box resolves to
the absent value do nothing. The body is wrapped in try/catch routing any
error to `errorHandling`. `issueResult` is the `commandResponse` returned by
`zowe.IssueCommand.issueSimple`, or the error it throws. -/
def modifyCommand (job : JobInfo) (inputBox : Except Err (Option String))
    (issueResult : Except Err String) : List Event × Option Err :=
  match inputBox with
  | Except.error e => ([Event.errorHandling e.message], none)
  | Except.ok none => ([], none)
  | Except.ok (some command) =>
    match issueResult with
    | Except.error e =>
      ([Event.issueCommand ("f " ++ job.jobname ++ "," ++ command),
        Event.errorHandling e.message], none)
    | Except.ok response =>
      ([Event.issueCommand ("f " ++ job.jobname ++ "," ++ command),
        Event.showInformationMessage ("Command response: " ++ response)], none)

/-- `stopCommand(job)` (lines 183-192): unconditionally issue `p <jobname>`
and show the response; try/catch routes any error to `errorHandling`. -/
def stopCommand (job : JobInfo) (issueResult : Except Err String) :
    List Event × Option Err :=
  match issueResult with
  | Except.error e =>
    ([Event.issueCommand ("p " ++ job.jobname),
      Event.errorHandling e.message], none)
  | Except.ok response =>
    ([Event.issueCommand ("p " ++ job.jobname),
      Event.showInformationMessage ("Command response: " ++ response)], none)

/-- `setOwner(job, jobsProvider)` (lines 201-205): await the input box,
unconditionally assign its result (possibly the absent value) to `job.owner`,
then call `refreshElement`. There is NO try/catch: an error thrown by the
input box or by `refreshElement` propagates out of the handler. Returns the
updated node, the trace, and the propagated exception if any. -/
def setOwner (job : JobNode) (inputBox : Except Err (Option String))
    (refreshThrows : Option Err) : JobNode × List Event × Option Err :=
  match inputBox with
  | Except.error e => (job, [], some e)
  | Except.ok newOwner =>
    let job1 : JobNode := { job with owner := newOwner }
    match refreshThrows with
    | some e => (job1, [Event.refreshElement (some job1.label)], some e)
    | none => (job1, [Event.refreshElement (some job1.label)], none)

/-- `setPrefix(job, jobsProvider)` (lines 213-219): identical to `setOwner`
but assigning `job.prefix`; no try/catch. -/
def setPrefix (job : JobNode) (inputBox : Except Err (Option String))
    (refreshThrows : Option Err) : JobNode × List Event × Option Err :=
  match inputBox with
  | Except.error e => (job, [], some e)
  | Except.ok newPrefix =>
    let job1 : JobNode := { job with prefixVal := newPrefix }
    match refreshThrows with
    | some e => (job1, [Event.refreshElement (some job1.label)], some e)
    | none => (job1, [Event.refreshElement (some job1.label)], none)

/-- JS `String.prototype.trim()` as used on node labels in `focusOnJob`:
strip leading and trailing whitespace characters. Embedded explicitly (over
the string's character list) so that it evaluates on concrete inputs. -/
def isJsWhitespace (ch : Char) : Bool :=
  ch == ' ' || ch == '\t' || ch == '\n' || ch == '\r' || ch == '\x0b' || ch == '\x0c'

def trimString (s : String) : String :=
  String.mk (((s.data.dropWhile isJsWhitespace).reverse.dropWhile isJsWhitespace).reverse)

/-- The TypeError the JS runtime throws when a field of `undefined` is read;
it propagates since no try/catch encloses the access. -/
def typeErr : Err := { message := "TypeError" }

/-- Result of `focusOnJob`: the trace, the provider's session-node list after
the call, and the exception propagated out of the handler, if any. -/
structure FocusResult where
  events : List Event
  mSessionNodes : List SessionNode
  thrown : Option Err
deriving DecidableEq, Repr

/-- The tail of `focusOnJob` (lines 143-154), shared by the found and
just-added paths: try `refreshElement(sessionNode)` (report and return on
error); assign `sessionNode.searchId = jobId` (a TypeError propagates when
`sessionNode` is undefined); `getChildren()` (no try/catch: an error
propagates); find the child whose `job.jobid` equals `jobId` and, only when
found, `setItem` it. The `searchId` assignment is recorded as an event. -/
def focusSelect (nodes : List SessionNode) (evs0 : List Event)
    (sessionNode : Option SessionNode) (jobId : String)
    (refreshThrows : Option Err)
    (getChildrenResult : Except Err (List JobInfo)) : FocusResult :=
  let evs1 := evs0 ++ [Event.refreshElement (sessionNode.map (fun n => n.label))]
  match refreshThrows with
  | some e =>
    { events := evs1 ++ [Event.errorHandling e.message],
      mSessionNodes := nodes, thrown := none }
  | none =>
    match sessionNode with
    | none => { events := evs1, mSessionNodes := nodes, thrown := some typeErr }
    | some sn =>
      let evs2 := evs1 ++ [Event.setSearchId sn.label jobId, Event.getChildren]
      match getChildrenResult with
      | Except.error e =>
        { events := evs2, mSessionNodes := nodes, thrown := some e }
      | Except.ok jobs =>
        match jobs.find? (fun jobNode => jobNode.jobid == jobId) with
        | some job =>
          { events := evs2 ++ [Event.setItem job.jobid],
            mSessionNodes := nodes, thrown := none }
        | none => { events := evs2, mSessionNodes := nodes, thrown := none }

/-- `focusOnJob(jobsProvider, sessionName, jobId)` (lines 130-155): look for a
session node whose trimmed label equals the trimmed `sessionName`; when
absent, try `addSession(sessionName)` (report and return on error) and search
again on the updated list, this time by untrimmed label equality; then run the
selection tail. `addSessionResult` is the provider's `mSessionNodes` after a
successful `addSession`, or the error it throws; `getChildrenResult` is the
list of job payloads of the session's children. -/
def focusOnJob (mSessionNodes : List SessionNode) (sessionName : String)
    (jobId : String) (addSessionResult : Except Err (List SessionNode))
    (refreshThrows : Option Err)
    (getChildrenResult : Except Err (List JobInfo)) : FocusResult :=
  match mSessionNodes.find? (fun jobNode => trimString jobNode.label == trimString sessionName) with
  | some sessionNode =>
    focusSelect mSessionNodes [] (some sessionNode) jobId refreshThrows getChildrenResult
  | none =>
    match addSessionResult with
    | Except.error e =>
      { events := [Event.addSession sessionName, Event.errorHandling e.message],
        mSessionNodes := mSessionNodes, thrown := none }
    | Except.ok newNodes =>
      focusSelect newNodes [Event.addSession sessionName]
        (newNodes.find? (fun jobNode => jobNode.label == sessionName)) jobId
        refreshThrows getChildrenResult

/-- The `for (const node of nodes)` loop of `deleteCommand` (lines 233-236):
for each node, `delete(node)` then unshift `" jobname(jobid)"` onto the
accumulator array (which starts as `[" "]`). Returns the final accumulator
and the delete events in call order. -/
def deleteLoop : List JobNode → List String → List String × List Event
  | [], deletedNodes => (deletedNodes, [])
  | node :: rest, deletedNodes =>
    match node.job with
    | some j =>
      let r := deleteLoop rest ((" " ++ j.jobname ++ "(" ++ j.jobid ++ ")") :: deletedNodes)
      (r.1, Event.deleteNode node :: r.2)
    | none => deleteLoop rest deletedNodes

/-- `deleteCommand(job, jobsProvider)` (lines 226-255): filter the tree
view's selection down to nodes with a defined `job`; when nonempty, delete
each, pop the trailing `" "` placeholder off the accumulated display list and
show one aggregate message (JS string+array coercion joins with ","); when
the selection had no job nodes and `job` is truthy, delete it and show a
per-job message (reading `job.job.jobname` throws a TypeError when `job.job`
is undefined, skipping the final broadcast); finally broadcast
`zowe.jobs.refreshAllJobs` once. There is no try/catch anywhere in it.
`deleteMultiEvents` is the multi-selection branch (lines 232-241): when the
filtered selection is nonempty, the loop's delete events followed by the
aggregate notification built from the popped display list. -/
def deleteMultiEvents (nodes : List JobNode) : List Event :=
  if nodes.length > 0 then
    (deleteLoop nodes [" "]).2 ++
      [Event.showInformationMessage
        ("The following jobs were deleted:" ++
          String.intercalate "," (deleteLoop nodes [" "]).1.dropLast)]
  else []

def deleteCommand (job : Option JobNode) (selection : List JobNode) :
    List Event × Option Err :=
  let nodes := selection.filter (fun jobNode => jobNode.job.isSome)
  let multiEvents := deleteMultiEvents nodes
  match job with
  | some jobNode =>
    if nodes.length > 0 then
      (multiEvents ++ [Event.executeCommand "zowe.jobs.refreshAllJobs"], none)
    else
      match jobNode.job with
      | none => (multiEvents ++ [Event.deleteNode jobNode], some typeErr)
      | some j =>
        (multiEvents ++
          [Event.deleteNode jobNode,
           Event.showInformationMessage
             ("Job " ++ j.jobname ++ "(" ++ j.jobid ++ ")" ++ " deleted"),
           Event.executeCommand "zowe.jobs.refreshAllJobs"], none)
  | none => (multiEvents ++ [Event.executeCommand "zowe.jobs.refreshAllJobs"], none)

/-- Number of events in a trace satisfying `p`. -/
def countEv (p : Event → Bool) (evs : List Event) : Nat := (evs.filter p).length

def isErrorHandling : Event → Bool
  | Event.errorHandling _ => true
  | _ => false

def isRefreshElement : Event → Bool
  | Event.refreshElement _ => true
  | _ => false

def isDeleteNode : Event → Bool
  | Event.deleteNode _ => true
  | _ => false

def isInfoMessage : Event → Bool
  | Event.showInformationMessage _ => true
  | _ => false

def isExecuteCommand : Event → Bool
  | Event.executeCommand _ => true
  | _ => false

def isAddSession : Event → Bool
  | Event.addSession _ => true
  | _ => false

def isShowTextDocument : Event → Bool
  | Event.showTextDocument _ _ _ => true
  | _ => false

def isSetItem : Event → Bool
  | Event.setItem _ => true
  | _ => false

/-- The operator command strings issued through `issueSimple`, in order. -/
def issuedCommands (evs : List Event) : List String :=
  evs.filterMap (fun e => match e with
    | Event.issueCommand c => some c
    | _ => none)

/-- The `(jobid, jobname, outDir)` arguments of each `downloadSpoolContent`
call, in order. -/
def downloadSpoolCalls (evs : List Event) : List (String × String × String) :=
  evs.filterMap (fun e => match e with
    | Event.downloadSpoolContent jobid jobname outDir => some (jobid, jobname, outDir)
    | _ => none)

/-- Whether a trace contains a spool-document open. -/
def containsShowTextDocument (evs : List Event) : Bool :=
  evs.any isShowTextDocument

/-- A concrete job tree node used for closed counterexamples. -/
def sampleNode : JobNode :=
  { job := some { jobname := "JOBA", jobid := "1" },
    owner := some "OLDOWNER", prefixVal := some "OLD*", label := "sess" }

/-- Claim C6: `modifyCommand`, when the input box returns a string, issues
exactly the command string `f <jobname>,<input>` and issues nothing when the
prompt is cancelled; `stopCommand` always issues exactly `p <jobname>`. -/
theorem C6_modify_stop_command_strings (job : JobInfo) (input : String)
    (issue : Except Err String) :
    issuedCommands (modifyCommand job (Except.ok (some input)) issue).1
      = ["f " ++ job.jobname ++ "," ++ input]
    ∧ (modifyCommand job (Except.ok none) issue).1 = []
    ∧ issuedCommands (stopCommand job issue).1 = ["p " ++ job.jobname] := by
  refine ⟨?_, rfl, ?_⟩ <;> cases issue <;> rfl

/-- Claim C9: `modifyCommand` treats only the absent value as cancellation:
on the empty string it still issues `f <jobname>,` (nothing after the
comma). -/
theorem C9_modifyCommand_empty_string_still_issues (job : JobInfo)
    (issue : Except Err String) :
    issuedCommands (modifyCommand job (Except.ok (some "")) issue).1
      = ["f " ++ job.jobname ++ ","] := by
  cases issue <;> simp [modifyCommand, issuedCommands]

/-- Claim C7: `downloadSpool` performs no collaborator call when the folder
picker resolves to the absent value, and otherwise makes exactly one
`downloadSpoolContent` call with the job's id and name and the selected
folder's path. -/
theorem C7_downloadSpool_cancel_or_single_call (job : JobInfo)
    (fsPath : String) (d : Option Err) :
    downloadSpool job (Except.ok none) d = ([], none)
    ∧ downloadSpoolCalls (downloadSpool job (Except.ok (some fsPath)) d).1
      = [(job.jobid, job.jobname, fsPath)] := by
  refine ⟨rfl, ?_⟩
  cases d <;> rfl

/-- Claim C8: `setOwner` (resp. `setPrefix`) unconditionally assigns the
input-box result — including the absent value on cancellation — to the
node's `owner` (resp. `prefix`) field and then calls `refreshElement`
exactly once. -/
theorem C8_setOwner_setPrefix_assign_unconditionally (job : JobNode)
    (result : Option String) (rt : Option Err) :
    (setOwner job (Except.ok result) rt).1.owner = result
    ∧ countEv isRefreshElement (setOwner job (Except.ok result) rt).2.1 = 1
    ∧ (setPrefix job (Except.ok result) rt).1.prefixVal = result
    ∧ countEv isRefreshElement (setPrefix job (Except.ok result) rt).2.1 = 1 := by
  cases rt <;> exact ⟨rfl, rfl, rfl, rfl⟩

/-- Claim C3: `getSpoolContent` reports and stops when `loadNamedProfile`
fails (no document, no further collaborator call), and otherwise opens the
spool document exactly when the validity after `checkCurrentProfile` is
VALID or UNVERIFIED. -/
theorem C3_getSpoolContent_gates_on_validity (session spool : String)
    (ts : Nat) (e : Err) (p : IProfileLoaded) (v : ValidProfileEnum)
    (sd : Option Err) :
    getSpoolContent session spool ts (Except.error e) v sd
      = ([Event.errorHandling e.message], none)
    ∧ containsShowTextDocument (getSpoolContent session spool ts (Except.ok p) v sd).1
      = (v == ValidProfileEnum.VALID || v == ValidProfileEnum.UNVERIFIED) := by
  refine ⟨rfl, ?_⟩
  cases v <;> cases sd <;> rfl

/-- Claim C1 counterexample: `setOwner` has no try/catch, so when
`refreshElement` throws, the error propagates out of the handler and the
error reporter is called zero times — refuting "every handler makes exactly
one `errorHandling` call and propagates nothing". -/
theorem C1_counterexample :
    (setOwner sampleNode (Except.ok (some "NEWOWNER"))
        (some { message := "refresh failed" })).2.2
      = some { message := "refresh failed" }
    ∧ countEv isErrorHandling
        (setOwner sampleNode (Except.ok (some "NEWOWNER"))
          (some { message := "refresh failed" })).2.1 = 0 :=
  ⟨rfl, rfl⟩

/-- Claim C1 amended: the handlers whose whole body is wrapped in try/catch
(`downloadSpool`, `getSpoolContent`, `downloadJcl`, `modifyCommand`,
`stopCommand`) never propagate an exception and call `errorHandling` exactly
once per collaborator error (zero times otherwise); handlers without a
try/catch, such as `setOwner`, propagate instead. -/
theorem C1_wrapped_handlers_report_once (job : JobInfo)
    (dres : Except Err (Option String)) (dthrow : Option Err)
    (session spool : String) (ts : Nat) (load : Except Err IProfileLoaded)
    (v : ValidProfileEnum) (sd : Option Err)
    (jcl : Except Err String) (od shd : Option Err)
    (input : Except Err (Option String)) (issue : Except Err String) :
    ((downloadSpool job dres dthrow).2 = none
      ∧ countEv isErrorHandling (downloadSpool job dres dthrow).1
          = (match dres with
             | Except.error _ => 1
             | Except.ok none => 0
             | Except.ok (some _) => if dthrow.isSome then 1 else 0))
    ∧ ((getSpoolContent session spool ts load v sd).2 = none
      ∧ countEv isErrorHandling (getSpoolContent session spool ts load v sd).1
          = (match load with
             | Except.error _ => 1
             | Except.ok _ =>
               if (v = ValidProfileEnum.VALID ∨ v = ValidProfileEnum.UNVERIFIED)
                   ∧ sd.isSome then 1 else 0))
    ∧ ((downloadJcl job jcl od shd).2 = none
      ∧ countEv isErrorHandling (downloadJcl job jcl od shd).1
          = (match jcl with
             | Except.error _ => 1
             | Except.ok _ =>
               if od.isSome then 1 else if shd.isSome then 1 else 0))
    ∧ ((modifyCommand job input issue).2 = none
      ∧ countEv isErrorHandling (modifyCommand job input issue).1
          = (match input with
             | Except.error _ => 1
             | Except.ok none => 0
             | Except.ok (some _) =>
               match issue with
               | Except.error _ => 1
               | Except.ok _ => 0))
    ∧ ((stopCommand job issue).2 = none
      ∧ countEv isErrorHandling (stopCommand job issue).1
          = (match issue with
             | Except.error _ => 1
             | Except.ok _ => 0)) := by
  refine ⟨?_, ?_, ?_, ?_, ?_⟩
  · rcases dres with e | o
    · exact ⟨rfl, rfl⟩
    · cases o <;> cases dthrow <;> exact ⟨rfl, rfl⟩
  · rcases load with e | p
    · exact ⟨rfl, rfl⟩
    · cases v <;> cases sd <;> exact ⟨rfl, rfl⟩
  · rcases jcl with e | s
    · exact ⟨rfl, rfl⟩
    · cases od <;> cases shd <;> exact ⟨rfl, rfl⟩
  · rcases input with e | o
    · exact ⟨rfl, rfl⟩
    · cases o <;> cases issue <;> exact ⟨rfl, rfl⟩
  · cases issue <;> exact ⟨rfl, rfl⟩

/-- Claim C2 counterexample: cancelling the `setOwner` input box still
assigns the absent value to `job.owner` (overwriting "OLDOWNER") and still
calls the tree provider's `refreshElement` — refuting "cancellation causes
no collaborator mutation call for every prompting handler". -/
theorem C2_counterexample :
    sampleNode.owner = some "OLDOWNER"
    ∧ (setOwner sampleNode (Except.ok none) none).1.owner = none
    ∧ (setOwner sampleNode (Except.ok none) none).2.1
      = [Event.refreshElement (some "sess")] :=
  ⟨rfl, rfl, rfl⟩

/-- Claim C2 amended: on cancellation, `downloadSpool` and `modifyCommand`
perform no collaborator call at all; `setOwner` and `setPrefix`, by
contrast, assign the absent value to the node's field and still call
`refreshElement` exactly once. -/
theorem C2_cancellation_behaviour (job : JobInfo) (node : JobNode)
    (d rt : Option Err) (issue : Except Err String) :
    downloadSpool job (Except.ok none) d = ([], none)
    ∧ modifyCommand job (Except.ok none) issue = ([], none)
    ∧ (setOwner node (Except.ok none) rt).1.owner = none
    ∧ countEv isRefreshElement (setOwner node (Except.ok none) rt).2.1 = 1
    ∧ (setPrefix node (Except.ok none) rt).1.prefixVal = none
    ∧ countEv isRefreshElement (setPrefix node (Except.ok none) rt).2.1 = 1 := by
  cases rt <;> exact ⟨rfl, rfl, rfl, rfl, rfl, rfl⟩

/-- Helper: `countEv` distributes over trace concatenation. -/
theorem countEv_append (p : Event → Bool) (a b : List Event) :
    countEv p (a ++ b) = countEv p a + countEv p b := by
  simp [countEv, List.filter_append]

/-- Helper: the deletion loop emits only `deleteNode` events, hence no
`executeCommand` events. -/
theorem deleteLoop_no_executeCommand (nodes : List JobNode) (acc : List String) :
    countEv isExecuteCommand (deleteLoop nodes acc).2 = 0 := by
  induction nodes generalizing acc with
  | nil => rfl
  | cons node rest ih =>
    cases hn : node.job with
    | some j =>
      simp only [deleteLoop, hn, countEv, List.filter]
      exact ih ((" " ++ j.jobname ++ "(" ++ j.jobid ++ ")") :: acc)
    | none =>
      simp only [deleteLoop, hn]
      exact ih acc

/-- Helper: the multi-selection branch contributes no `executeCommand`
events. -/
theorem deleteMultiEvents_no_executeCommand (nodes : List JobNode) :
    countEv isExecuteCommand (deleteMultiEvents nodes) = 0 := by
  unfold deleteMultiEvents
  split
  · rw [countEv_append, deleteLoop_no_executeCommand]
    rfl
  · rfl

/-- Helper: the last element of a trace extended by three events is the
third. -/
theorem getLast?_append_three (a : List Event) (x y z : Event) :
    (a ++ [x, y, z]).getLast? = some z := by
  rw [show a ++ [x, y, z] = (a ++ [x, y]) ++ [z] by simp]
  exact List.getLast?_concat _

/-- Claim C10: `deleteCommand` always ends with exactly one broadcast of
`zowe.jobs.refreshAllJobs` — for an absent `job` argument with any selection,
for a `job` argument carrying a job payload with any selection, and in
particular when neither deletion branch runs (no job nodes selected and no
`job` argument). -/
theorem C10_deleteCommand_always_broadcasts (selection : List JobNode)
    (node : JobNode) (j : JobInfo) :
    deleteCommand none [] = ([Event.executeCommand "zowe.jobs.refreshAllJobs"], none)
    ∧ countEv isExecuteCommand (deleteCommand none selection).1 = 1
    ∧ (deleteCommand none selection).1.getLast?
      = some (Event.executeCommand "zowe.jobs.refreshAllJobs")
    ∧ countEv isExecuteCommand
        (deleteCommand (some { node with job := some j }) selection).1 = 1
    ∧ (deleteCommand (some { node with job := some j }) selection).1.getLast?
      = some (Event.executeCommand "zowe.jobs.refreshAllJobs") := by
  refine ⟨rfl, ?_, ?_, ?_, ?_⟩
  · simp only [deleteCommand]
    rw [countEv_append, deleteMultiEvents_no_executeCommand]
    rfl
  · simp only [deleteCommand]
    exact List.getLast?_concat _
  · simp only [deleteCommand]
    split
    · rw [countEv_append, deleteMultiEvents_no_executeCommand]
      rfl
    · rw [countEv_append, deleteMultiEvents_no_executeCommand]
      rfl
  · simp only [deleteCommand]
    split
    · exact List.getLast?_concat _
    · exact getLast?_append_three _ _ _ _

/-- A job tree node with a present job payload. -/
def mkJobNode (info : JobInfo) (owner prefixVal : Option String)
    (label : String) : JobNode :=
  { job := some info, owner := owner, prefixVal := prefixVal, label := label }

/-- Claim C4: with a selection of exactly the two job nodes `A(1)` and
`B(2)`, `deleteCommand` makes exactly 2 `delete` calls and shows exactly one
notification listing both `jobname(jobid)` strings (in reverse order, joined
by ","); with a selection containing no job nodes and a single `job`
argument `C(3)`, it makes exactly 1 `delete` call and the notification
mentions `C(3)` only; both branches end with exactly one broadcast of
`zowe.jobs.refreshAllJobs`. -/
theorem C4_deleteCommand_two_scenarios (a b c : JobInfo)
    (oA pA oB pB oC pC : Option String) (lA lB lC : String)
    (job : Option JobNode) (selection : List JobNode)
    (hsel : selection.filter (fun jobNode => jobNode.job.isSome) = []) :
    (deleteCommand job [mkJobNode a oA pA lA, mkJobNode b oB pB lB]
      = ([Event.deleteNode (mkJobNode a oA pA lA),
          Event.deleteNode (mkJobNode b oB pB lB),
          Event.showInformationMessage
            ("The following jobs were deleted:" ++
              String.intercalate ","
                [" " ++ b.jobname ++ "(" ++ b.jobid ++ ")",
                 " " ++ a.jobname ++ "(" ++ a.jobid ++ ")"]),
          Event.executeCommand "zowe.jobs.refreshAllJobs"], none))
    ∧ countEv isDeleteNode
        (deleteCommand job [mkJobNode a oA pA lA, mkJobNode b oB pB lB]).1 = 2
    ∧ countEv isInfoMessage
        (deleteCommand job [mkJobNode a oA pA lA, mkJobNode b oB pB lB]).1 = 1
    ∧ countEv isExecuteCommand
        (deleteCommand job [mkJobNode a oA pA lA, mkJobNode b oB pB lB]).1 = 1
    ∧ (deleteCommand (some (mkJobNode c oC pC lC)) selection
      = ([Event.deleteNode (mkJobNode c oC pC lC),
          Event.showInformationMessage
            ("Job " ++ c.jobname ++ "(" ++ c.jobid ++ ")" ++ " deleted"),
          Event.executeCommand "zowe.jobs.refreshAllJobs"], none))
    ∧ countEv isDeleteNode
        (deleteCommand (some (mkJobNode c oC pC lC)) selection).1 = 1
    ∧ countEv isInfoMessage
        (deleteCommand (some (mkJobNode c oC pC lC)) selection).1 = 1
    ∧ countEv isExecuteCommand
        (deleteCommand (some (mkJobNode c oC pC lC)) selection).1 = 1 := by
  refine ⟨?_, ?_, ?_, ?_, ?_, ?_, ?_, ?_⟩
  · cases job <;> rfl
  · cases job <;> rfl
  · cases job <;> rfl
  · cases job <;> rfl
  · simp only [deleteCommand, hsel]
    rfl
  · simp only [deleteCommand, hsel]
    rfl
  · simp only [deleteCommand, hsel]
    rfl
  · simp only [deleteCommand, hsel]
    rfl

/-- Witness for C4 at a concrete input: `deleteCommand` invoked with job
`C(3)` and an empty selection. -/
theorem C4_deleteCommand_two_scenarios_witness :
    deleteCommand (some (mkJobNode { jobname := "C", jobid := "3" } none none "c")) []
      = ([Event.deleteNode (mkJobNode { jobname := "C", jobid := "3" } none none "c"),
          Event.showInformationMessage
            ("Job " ++ "C" ++ "(" ++ "3" ++ ")" ++ " deleted"),
          Event.executeCommand "zowe.jobs.refreshAllJobs"], none) :=
  (C4_deleteCommand_two_scenarios { jobname := "A", jobid := "1" }
    { jobname := "B", jobid := "2" } { jobname := "C", jobid := "3" }
    none none none none none none "a" "b" "c" none [] rfl).2.2.2.2.1

/-- Helper: the selection tail of `focusOnJob` never emits an `addSession`
event. -/
theorem focusSelect_no_addSession (nodes : List SessionNode)
    (sessionNode : Option SessionNode) (jobId : String)
    (rt : Option Err) (gc : Except Err (List JobInfo)) :
    countEv isAddSession (focusSelect nodes [] sessionNode jobId rt gc).events = 0 := by
  cases rt with
  | some e => rfl
  | none =>
    cases sessionNode with
    | none => rfl
    | some sn =>
      cases gc with
      | error e => rfl
      | ok jobs =>
        cases hj : jobs.find? (fun jobNode => jobNode.jobid == jobId) with
        | none => simp [focusSelect, hj, countEv, isAddSession]
        | some jb => simp [focusSelect, hj, countEv, isAddSession]

/-- Claim C5: `focusOnJob` calls `addSession` exactly once when no existing
session node has a trimmed label equal to the trimmed session name, and
selection then proceeds (refresh, setting `searchId`, fetching children,
selecting the matching job); when a matching session node exists,
`addSession` is never called; and when no child's job id equals the target,
the handler silently does nothing after fetching the children. -/
theorem C5_focusOnJob_session_and_selection (mSessionNodes newNodes : List SessionNode)
    (sessionName jobId : String) (sn : SessionNode) (jobs : List JobInfo)
    (jb : JobInfo) (addRes : Except Err (List SessionNode))
    (rt : Option Err) (gc : Except Err (List JobInfo)) :
    (mSessionNodes.find? (fun jobNode => trimString jobNode.label == trimString sessionName) = none →
     newNodes.find? (fun jobNode => jobNode.label == sessionName) = some sn →
     jobs.find? (fun jobNode => jobNode.jobid == jobId) = some jb →
     focusOnJob mSessionNodes sessionName jobId (Except.ok newNodes) none (Except.ok jobs)
       = { events := [Event.addSession sessionName,
                      Event.refreshElement (some sn.label),
                      Event.setSearchId sn.label jobId, Event.getChildren,
                      Event.setItem jb.jobid],
           mSessionNodes := newNodes, thrown := none })
    ∧ (∀ sn0 : SessionNode,
       mSessionNodes.find? (fun jobNode => trimString jobNode.label == trimString sessionName) = some sn0 →
       countEv isAddSession (focusOnJob mSessionNodes sessionName jobId addRes rt gc).events = 0)
    ∧ (mSessionNodes.find? (fun jobNode => trimString jobNode.label == trimString sessionName) = some sn →
       jobs.find? (fun jobNode => jobNode.jobid == jobId) = none →
       focusOnJob mSessionNodes sessionName jobId addRes none (Except.ok jobs)
         = { events := [Event.refreshElement (some sn.label),
                        Event.setSearchId sn.label jobId, Event.getChildren],
             mSessionNodes := mSessionNodes, thrown := none }) := by
  refine ⟨?_, ?_, ?_⟩
  · intro h1 h2 h3
    simp [focusOnJob, focusSelect, h1, h2, h3]
  · intro sn0 h
    simp only [focusOnJob, h]
    exact focusSelect_no_addSession mSessionNodes (some sn0) jobId rt gc
  · intro h1 h3
    simp [focusOnJob, focusSelect, h1, h3]

/-- Witness for C5 at concrete inputs: an empty session list forcing one
`addSession`, then an existing session node named "sess" with no matching
child. -/
theorem C5_focusOnJob_session_and_selection_witness :
    (focusOnJob [] "sess" "J1"
        (Except.ok [{ label := "sess", searchId := "" }]) none
        (Except.ok [{ jobname := "JOB1", jobid := "J1" }])
      = { events := [Event.addSession "sess",
                     Event.refreshElement (some "sess"),
                     Event.setSearchId "sess" "J1", Event.getChildren,
                     Event.setItem "J1"],
          mSessionNodes := [{ label := "sess", searchId := "" }], thrown := none })
    ∧ countEv isAddSession
        (focusOnJob [{ label := "sess", searchId := "" }] "sess" "J1"
          (Except.ok []) none (Except.ok [])).events = 0
    ∧ (focusOnJob [{ label := "sess", searchId := "" }] "sess" "J1"
        (Except.ok []) none (Except.ok [])
      = { events := [Event.refreshElement (some "sess"),
                     Event.setSearchId "sess" "J1", Event.getChildren],
          mSessionNodes := [{ label := "sess", searchId := "" }], thrown := none }) :=
  ⟨(C5_focusOnJob_session_and_selection [] [{ label := "sess", searchId := "" }]
      "sess" "J1" { label := "sess", searchId := "" }
      [{ jobname := "JOB1", jobid := "J1" }] { jobname := "JOB1", jobid := "J1" }
      (Except.ok [{ label := "sess", searchId := "" }]) none
      (Except.ok [{ jobname := "JOB1", jobid := "J1" }])).1 rfl rfl rfl,
   (C5_focusOnJob_session_and_selection [{ label := "sess", searchId := "" }] []
      "sess" "J1" { label := "sess", searchId := "" } [] { jobname := "JOB1", jobid := "J1" }
      (Except.ok []) none (Except.ok [])).2.1 { label := "sess", searchId := "" } rfl,
   (C5_focusOnJob_session_and_selection [{ label := "sess", searchId := "" }] []
      "sess" "J1" { label := "sess", searchId := "" } [] { jobname := "JOB1", jobid := "J1" }
      (Except.ok []) none (Except.ok [])).2.2 rfl rfl⟩
